import Mathlib

/-!
Shallow embedding of the multi-role dispatch/supervision control loop of the
customer-support-agent repository (`src/agents/nodes.py`, `src/agents/types.py`,
`src/agents/builder.py`).

The external language-model calls (router classification, role agents,
supervising reviewer) are modelled as an abstract capability environment
`Env`: deterministic functions from the exact inputs the code hands them to
the structured outputs the code reads back.  Everything else — message
construction, history threading, graph dispatch — is translated directly
from the Python source.  The langgraph driver is modelled as a fuel-bounded
interpreter `run` over the node table of `build_graph`, recording an event
trace of capability invocations so that invocation counts and data-flow
properties can be stated.
-/

/-- Message kind: langchain `HumanMessage` vs `AIMessage` (the only two
constructed by `nodes.py`). -/
inductive MsgRole where
  | human
  | ai
deriving DecidableEq, Repr

/-- A history entry: role tag, text body, and the optional `name` field
(the origin label; `None` for externally supplied messages, set to
"router" / the agent name / "supervisor" / "final_response" by the
coordinator). -/
structure Msg where
  role : MsgRole
  content : String
  name : Option String
deriving DecidableEq, Repr

/-- `Router` TypedDict from `src/agents/types.py`: `next` is declared as
`Literal[*OPTIONS]` but is modelled as an arbitrary string because the
structured-output contract can be violated by the external capability
(the spec calls that case a contract violation). -/
structure RouterOut where
  next : String
  action : String
  information : String
deriving DecidableEq, Repr

/-- `Supervisor` TypedDict from `src/agents/types.py`.  `approval` is
declared `Literal["approved", "rejected"]`; the code only ever compares it
against "approved". -/
structure SupervisorOut where
  approval : String
  response : String
deriving DecidableEq, Repr

/-- `State` from `src/agents/types.py`: `MessagesState` plus the `next`
and `full_plan` string fields (`full_plan` is never read or written by any
node). -/
structure AgentState where
  messages : List Msg
  next : String
  full_plan : String
deriving DecidableEq, Repr

/-- The abstract capability environment: the three kinds of external
language-model calls made by `CustomerSupportAgentCoordinator`.
`routerFn` sees the list of message contents the router node builds
(each history entry is forwarded as a "human" turn after the system
prompt); `roleFn` maps (agent name, forwarded user message) to the
content of the agent result's last message; `supervisorFn` maps
(original question, agent message) to the structured review output. -/
structure Env where
  routerFn : List String → RouterOut
  roleFn : String → String → String
  supervisorFn : String → String → SupervisorOut

/-- `app_config.TEAM_MEMBERS` from `src/app_config.py`. -/
def teamMembers : List String :=
  ["general_info_agent", "technical_agent", "billing_agent", "supervisor_agent"]

/-- `OPTIONS = app_config.TEAM_MEMBERS + ["FINISH"]` from `src/agents/types.py`. -/
def routerOptions : List String := teamMembers ++ ["FINISH"]

/-- The three role-responder nodes registered in `build_graph` (the
routable role agents other than the supervisor itself). -/
def roleAgents : List String :=
  ["general_info_agent", "technical_agent", "billing_agent"]

/-- `RESPONSE_FORMAT.format(agent_name=..., information=...)` from
`nodes.py`.  `ChatPromptTemplate.format` renders the single human message
through `get_buffer_string`, which prefixes "Human: "; the body reproduces
the triple-quoted template verbatim, indentation included. -/
def responseFormat (agentName information : String) : String :=
  "Human: Response from " ++ agentName ++ ":\n            \n - " ++ information ++
    "\n            With above information please provide the final answer to the user.\n            \n            "

/-- The message content the router node hands to the chosen next node:
`f"Conduct the following action: {action} with this information: {information}"`. -/
def routerMessage (r : RouterOut) : String :=
  "Conduct the following action: " ++ r.action ++ " with this information: " ++ r.information

/-- The fixed apology emitted by `supervisor_node` on a non-approved verdict. -/
def apologyText : String :=
  "I\x27m sorry, I can\x27t help with that. Please try again."

/-- langchain `BaseMessage` always defines the `name` attribute (it is a
declared field with default `None`), so Python's `hasattr(msg, "name")` is
always `True` on a message. -/
def hasattrName (_ : Msg) : Bool := true

/-- The loop condition of `_get_original_user_question`, with Python's
operator precedence made explicit: `A and B and C or D` parses as
`(A and B and C) or D`, i.e.
`(isinstance(msg, HumanMessage) and msg.name != "router" and not hasattr(msg, "name")) or (msg.name is None)`. -/
def origCond (m : Msg) : Bool :=
  (m.role == .human && !(m.name == some "router") && !(hasattrName m)) || m.name == none

/-- `CustomerSupportAgentCoordinator._get_original_user_question`:
return the content of the first message satisfying `origCond`, else the
last message's content, else "". -/
def getOriginalUserQuestion (msgs : List Msg) : String :=
  match msgs.find? origCond with
  | some m => m.content
  | none =>
    match msgs.getLast? with
    | some m => m.content
    | none => ""

/-- Content of `state["messages"][-1]`; `none` models the `IndexError`
raised on an empty history. -/
def lastContent? (msgs : List Msg) : Option String :=
  msgs.getLast?.map Msg.content

/-- Trace events: one per external capability invocation, recording the
exact data handed to the capability. -/
inductive Event where
  | routerCall (out : RouterOut)
  | roleCall (agentName : String) (directive : String)
  | reviewCall (original : String) (candidate : String)
deriving DecidableEq, Repr

/-- A langgraph `Command`: state update (messages to append via the
`add_messages` reducer, optional overwrite of `next`) plus the `goto`
target. -/
structure Command where
  update : List Msg
  nextField : Option String
  goto : String
deriving DecidableEq, Repr

/-- Apply a `Command`'s update to the state (langgraph `add_messages`
appends; `next` is overwritten when the update carries it). -/
def applyCmd (s : AgentState) (c : Command) : AgentState :=
  { s with
      messages := s.messages ++ c.update
      next := c.nextField.getD s.next }

/-- `CustomerSupportAgentCoordinator.router_node`: forward every history
entry's content to the router capability, append the
`supervisor_message` directive as a `HumanMessage` named "router", set
`next`, and go to the returned target verbatim. -/
def router_node (env : Env) (s : AgentState) : Command × List Event :=
  let r := env.routerFn (s.messages.map Msg.content)
  ({ update := [⟨.human, routerMessage r, some "router"⟩]
     nextField := some r.next
     goto := r.next },
   [.routerCall r])

/-- `CustomerSupportAgentCoordinator._invoke_agent`: read the last
message's content, invoke the role capability on it, wrap the result via
`RESPONSE_FORMAT`, append it as a `HumanMessage` named after the agent,
and go to the supervisor.  `none` models the `IndexError` on an empty
history. -/
def invoke_agent (env : Env) (s : AgentState) (agentName : String) :
    Option (Command × List Event) :=
  match lastContent? s.messages with
  | none => none
  | some userMsg =>
    let result := env.roleFn agentName userMsg
    let response := responseFormat agentName result
    some
      ({ update := [⟨.human, response, some agentName⟩]
         nextField := none
         goto := "supervisor_agent" },
       [.roleCall agentName userMsg])

/-- `CustomerSupportAgentCoordinator.supervisor_node`: pair the original
user question with the last message, invoke the review capability; on
"approved" append the review response, otherwise append the fixed
apology; either way go to `final_response`. -/
def supervisor_node (env : Env) (s : AgentState) : Option (Command × List Event) :=
  match lastContent? s.messages with
  | none => none
  | some agentMsg =>
    let originalQuestion := getOriginalUserQuestion s.messages
    let r := env.supervisorFn originalQuestion agentMsg
    if r.approval = "approved" then
      some
        ({ update := [⟨.ai, r.response, some "supervisor"⟩]
           nextField := none
           goto := "final_response" },
         [.reviewCall originalQuestion agentMsg])
    else
      some
        ({ update := [⟨.ai, apologyText, some "supervisor"⟩]
           nextField := none
           goto := "final_response" },
         [.reviewCall originalQuestion agentMsg])

/-- `CustomerSupportAgentCoordinator.final_response_node`: re-append the
last message's content as an `AIMessage` named "final_response" and end
the run. -/
def final_response_node (s : AgentState) : Option (Command × List Event) :=
  match lastContent? s.messages with
  | none => none
  | some finalMsg =>
    some
      ({ update := [⟨.ai, finalMsg, some "final_response"⟩]
         nextField := none
         goto := "__end__" },
       [])

/-- The node table of `build_graph` (`src/agents/builder.py`): the six
registered nodes; any other name is not a node of the compiled graph. -/
def nodeFn (node : String) :
    Option (Env → AgentState → Option (Command × List Event)) :=
  match node with
  | "router" => some (fun env s => some (router_node env s))
  | "general_info_agent" => some (fun env s => invoke_agent env s "general_info_agent")
  | "technical_agent" => some (fun env s => invoke_agent env s "technical_agent")
  | "billing_agent" => some (fun env s => invoke_agent env s "billing_agent")
  | "supervisor_agent" => some (fun env s => supervisor_node env s)
  | "final_response" => some (fun _ s => final_response_node s)
  | _ => none

/-- Outcome of a (fuel-bounded) graph execution.  `runtimeError` models
langgraph raising on a `goto` naming no registered node;
`nodeException` models a Python exception inside a node (empty-history
`IndexError`). -/
inductive Outcome where
  | done (s : AgentState)
  | runtimeError (node : String) (s : AgentState)
  | nodeException (node : String) (s : AgentState)
  | outOfFuel (node : String) (s : AgentState)
deriving DecidableEq, Repr

/-- Fuel-bounded interpreter for the compiled graph: execute the current
node, apply its `Command` update, and continue at its `goto` target;
`"__end__"` terminates.  Returns the outcome and the trace of capability
invocations. -/
def run (env : Env) : Nat → String → AgentState → Outcome × List Event
  | 0, node, s => (.outOfFuel node s, [])
  | fuel + 1, node, s =>
    if node = "__end__" then (.done s, [])
    else
      match nodeFn node with
      | none => (.runtimeError node s, [])
      | some f =>
        match f env s with
        | none => (.nodeException node s, [])
        | some (cmd, evs) =>
          let r := run env fuel cmd.goto (applyCmd s cmd)
          (r.1, evs ++ r.2)

/-- The original-question argument of every review invocation in a trace. -/
def reviewOriginals (tr : List Event) : List String :=
  tr.filterMap fun e =>
    match e with
    | .reviewCall q _ => some q
    | _ => none

/-- Number of role-agent invocations in a trace. -/
def roleCallCount (tr : List Event) : Nat :=
  (tr.filter fun e =>
    match e with
    | .roleCall _ _ => true
    | _ => false).length

/-- Number of review invocations in a trace. -/
def reviewCallCount (tr : List Event) : Nat :=
  (tr.filter fun e =>
    match e with
    | .reviewCall _ _ => true
    | _ => false).length

/-- Number of routing passes (router invocations) in a trace. -/
def routerCallCount (tr : List Event) : Nat :=
  (tr.filter fun e =>
    match e with
    | .routerCall _ => true
    | _ => false).length

/-- Whether an outcome is normal completion (reaching `__end__`). -/
def Outcome.isDone : Outcome → Bool
  | .done _ => true
  | _ => false

/-- State after the router node's `Command` update is applied
(`applyCmd` on `router_node`'s command). -/
def routerSucc (s : AgentState) (r : RouterOut) : AgentState :=
  { s with messages := s.messages ++ [⟨.human, routerMessage r, some "router"⟩]
           next := r.next }

/-- State after a role node's `Command` update is applied
(`applyCmd` on `_invoke_agent`'s command for last message `d`). -/
def roleSucc (env : Env) (s : AgentState) (name d : String) : AgentState :=
  { s with messages := s.messages ++
      [⟨.human, responseFormat name (env.roleFn name d), some name⟩] }

/-- State after the supervisor node's update on an approved verdict. -/
def supervisorSuccA (env : Env) (s : AgentState) (c : String) : AgentState :=
  { s with messages := s.messages ++
      [⟨.ai, (env.supervisorFn (getOriginalUserQuestion s.messages) c).response,
        some "supervisor"⟩] }

/-- State after the supervisor node's update on a rejected verdict. -/
def supervisorSuccR (s : AgentState) : AgentState :=
  { s with messages := s.messages ++ [⟨.ai, apologyText, some "supervisor"⟩] }

/-- State after the final_response node's update, `d` being the previous
last message content. -/
def finalSucc (s : AgentState) (d : String) : AgentState :=
  { s with messages := s.messages ++ [⟨.ai, d, some "final_response"⟩] }

/-- Initial state holding one externally supplied question (entries coming
from the caller carry no `name`). -/
def askBill : AgentState :=
  ⟨[⟨.human, "I was overcharged on my last bill", none⟩], "", ""⟩

/-- Another initial state with one externally supplied message. -/
def helloState : AgentState := ⟨[⟨.human, "hello there", none⟩], "", ""⟩

/-- A routing decision targeting the billing agent. -/
def rBilling : RouterOut :=
  ⟨"billing_agent", "handle the user query", "overcharge report"⟩

/-- Capability stub: always route to billing, always approve with a fixed
final text. -/
def envBilling : Env :=
  { routerFn := fun _ => rBilling
    roleFn := fun _ m => "Refund issued for: " ++ m
    supervisorFn := fun _ _ => ⟨"approved", "All good."⟩ }

/-- A routing decision targeting the billing agent (rejection scenario). -/
def rBillIssue : RouterOut := ⟨"billing_agent", "handle the user query", "billing issue"⟩

/-- Capability stub: route to billing, reviewer always rejects. -/
def envReject : Env :=
  { routerFn := fun _ => rBillIssue
    roleFn := fun _ _ => "Here is the answer."
    supervisorFn := fun _ _ => ⟨"rejected", "incomplete"⟩ }

/-- Capability stub: classifier immediately returns the terminal sentinel. -/
def envFinish : Env :=
  ⟨fun _ => ⟨"FINISH", "wrap up", "conversation complete"⟩, fun _ m => m,
   fun _ c => ⟨"approved", c⟩⟩

/-- Capability stub: classifier returns the terminal sentinel (second
scenario, different decision payload). -/
def envFinishStop : Env :=
  ⟨fun _ => ⟨"FINISH", "stop", "done"⟩, fun _ m => m, fun _ c => ⟨"approved", c⟩⟩

/-- Capability stub: classifier names the internal `final_response` node,
which is not a member of the role registry. -/
def envInternal : Env :=
  ⟨fun _ => ⟨"final_response", "skip", "shortcut"⟩, fun _ m => m,
   fun _ c => ⟨"approved", c⟩⟩

/-- A routing decision naming a role unknown to the graph. -/
def rWeather : RouterOut := ⟨"weather_agent", "handle", "forecast"⟩

/-- Capability stub: classifier names a role absent from the graph. -/
def envUnknownRole : Env :=
  ⟨fun _ => rWeather, fun _ m => m, fun _ c => ⟨"approved", c⟩⟩

/-- Capability stub: classifier dispatches straight to the supervisor
(permitted: `supervisor_agent` is a member of `TEAM_MEMBERS`), reviewer
rejects. -/
def envDirectReject : Env :=
  ⟨fun _ => ⟨"supervisor_agent", "audit", "check"⟩, fun _ m => m,
   fun _ _ => ⟨"rejected", "needs detail"⟩⟩

/-- A state whose last message duplicates `shortHistoryState`'s but with
extra earlier history. -/
def longHistoryState : AgentState :=
  ⟨[⟨.human, "what are your opening hours", none⟩,
    ⟨.human, "shared directive", some "router"⟩], "", ""⟩

/-- A state holding only the directive message. -/
def shortHistoryState : AgentState :=
  ⟨[⟨.human, "shared directive", some "router"⟩], "", ""⟩

theorem lastContent?_concat (l : List Msg) (m : Msg) :
    lastContent? (l ++ [m]) = some m.content := by
  simp [lastContent?]

theorem head?_applyCmd (s : AgentState) (c : Command) (m : Msg)
    (h : s.messages.head? = some m) : (applyCmd s c).messages.head? = some m := by
  cases hm : s.messages with
  | nil => rw [hm] at h; simp at h
  | cons a t => rw [hm] at h; simp at h; simp [applyCmd, hm, h]

theorem getOriginal_head (msgs : List Msg) (m : Msg)
    (h : msgs.head? = some m) (hn : m.name = none) :
    getOriginalUserQuestion msgs = m.content := by
  cases hm : msgs with
  | nil => rw [hm] at h; simp at h
  | cons a t =>
    rw [hm] at h; simp at h
    subst h
    simp [getOriginalUserQuestion, List.find?_cons_of_pos, origCond, hn]

theorem node_review_originals (node : String) (f : Env → AgentState → Option (Command × List Event))
    (env : Env) (s : AgentState) (cmd : Command) (evs : List Event)
    (hf : nodeFn node = some f) (hr : f env s = some (cmd, evs)) :
    ∀ q c, Event.reviewCall q c ∈ evs → q = getOriginalUserQuestion s.messages := by
  have roleCase : ∀ a : String, invoke_agent env s a = some (cmd, evs) →
      ∀ q c, Event.reviewCall q c ∈ evs → q = getOriginalUserQuestion s.messages := by
    intro a hr q c hq
    unfold invoke_agent at hr
    split at hr
    · exact Option.noConfusion hr
    · simp only [Option.some.injEq, Prod.mk.injEq] at hr
      rw [← hr.2] at hq; simp at hq
  unfold nodeFn at hf
  split at hf
  · injection hf with hf; subst hf
    simp only [router_node, Option.some.injEq, Prod.mk.injEq] at hr
    rw [← hr.2]; intro q c hq; simp at hq
  · injection hf with hf; subst hf; exact roleCase _ hr
  · injection hf with hf; subst hf; exact roleCase _ hr
  · injection hf with hf; subst hf; exact roleCase _ hr
  · injection hf with hf; subst hf
    replace hr : supervisor_node env s = some (cmd, evs) := hr
    unfold supervisor_node at hr
    split at hr
    · exact Option.noConfusion hr
    · dsimp only [] at hr
      split at hr <;>
      · simp only [Option.some.injEq, Prod.mk.injEq] at hr
        rw [← hr.2]; intro q c hq; simp at hq
        exact hq.1
  · injection hf with hf; subst hf
    replace hr : final_response_node s = some (cmd, evs) := hr
    unfold final_response_node at hr
    split at hr
    · exact Option.noConfusion hr
    · simp only [Option.some.injEq, Prod.mk.injEq] at hr
      rw [← hr.2]; intro q c hq; simp at hq
  · exact Option.noConfusion hf

theorem original_request_invariant_aux (env : Env) (fuel : Nat) :
    ∀ (node : String) (s : AgentState) (m : Msg),
      s.messages.head? = some m → m.name = none →
      ∀ q ∈ reviewOriginals (run env fuel node s).2, q = m.content := by
  induction fuel with
  | zero => intro node s m hh hn q hq; simp [run, reviewOriginals] at hq
  | succ fuel ih =>
    intro node s m hh hn q hq
    by_cases hend : node = "__end__"
    · simp [run, hend, reviewOriginals] at hq
    · cases hnf : nodeFn node with
      | none => simp [run, if_neg hend, hnf, reviewOriginals] at hq
      | some f =>
        cases hfr : f env s with
        | none => simp [run, if_neg hend, hnf, hfr, reviewOriginals] at hq
        | some p =>
          obtain ⟨cmd, evs⟩ := p
          simp only [run, if_neg hend, hnf, hfr] at hq
          simp only [reviewOriginals, List.filterMap_append, List.mem_append] at hq
          rcases hq with hq | hq
          · rw [List.mem_filterMap] at hq
            obtain ⟨e, he, hqe⟩ := hq
            cases e with
            | reviewCall q0 c0 =>
              simp only [Option.some.injEq] at hqe
              subst hqe
              rw [node_review_originals node f env s cmd evs hnf hfr q0 c0 he]
              exact getOriginal_head s.messages m hh hn
            | routerCall r => simp at hqe
            | roleCall a d => simp at hqe
          · exact ih cmd.goto (applyCmd s cmd) m (head?_applyCmd s cmd m hh) hn q
              (by simpa [reviewOriginals] using hq)

theorem run_end_step (env : Env) (F f : Nat) (hF : F = f + 1) (s : AgentState) :
    run env F "__end__" s = (.done s, []) := by
  subst hF; simp [run]

theorem run_unknown_step (env : Env) (F f : Nat) (hF : F = f + 1) (s : AgentState)
    (node : String) (hnode : nodeFn node = none) (hend : node ≠ "__end__") :
    run env F node s = (.runtimeError node s, []) := by
  subst hF; simp [run, hnode, hend]

theorem run_router_step (env : Env) (F f : Nat) (hF : F = f + 1) (s : AgentState)
    (r : RouterOut) (hr : env.routerFn (s.messages.map Msg.content) = r) :
    run env F "router" s =
      ((run env f r.next (routerSucc s r)).1,
       .routerCall r :: (run env f r.next (routerSucc s r)).2) := by
  subst hF; simp [run, nodeFn, router_node, hr, applyCmd, routerSucc]

theorem run_role_step (env : Env) (F f : Nat) (hF : F = f + 1) (s : AgentState)
    (name d : String) (hmem : name ∈ roleAgents) (hd : lastContent? s.messages = some d) :
    run env F name s =
      ((run env f "supervisor_agent" (roleSucc env s name d)).1,
       .roleCall name d :: (run env f "supervisor_agent" (roleSucc env s name d)).2) := by
  subst hF; fin_cases hmem <;> simp [run, nodeFn, invoke_agent, hd, applyCmd, roleSucc]

theorem run_supervisor_approved (env : Env) (F f : Nat) (hF : F = f + 1) (s : AgentState)
    (c : String) (hc : lastContent? s.messages = some c)
    (ha : (env.supervisorFn (getOriginalUserQuestion s.messages) c).approval = "approved") :
    run env F "supervisor_agent" s =
      ((run env f "final_response" (supervisorSuccA env s c)).1,
       .reviewCall (getOriginalUserQuestion s.messages) c ::
        (run env f "final_response" (supervisorSuccA env s c)).2) := by
  subst hF; simp [run, nodeFn, supervisor_node, hc, ha, applyCmd, supervisorSuccA]

theorem run_supervisor_rejected (env : Env) (F f : Nat) (hF : F = f + 1) (s : AgentState)
    (c : String) (hc : lastContent? s.messages = some c)
    (ha : ¬ (env.supervisorFn (getOriginalUserQuestion s.messages) c).approval = "approved") :
    run env F "supervisor_agent" s =
      ((run env f "final_response" (supervisorSuccR s)).1,
       .reviewCall (getOriginalUserQuestion s.messages) c ::
        (run env f "final_response" (supervisorSuccR s)).2) := by
  subst hF; simp [run, nodeFn, supervisor_node, hc, ha, applyCmd, supervisorSuccR]

theorem run_final_step (env : Env) (F f : Nat) (hF : F = f + 2) (s : AgentState)
    (d : String) (hd : lastContent? s.messages = some d) :
    run env F "final_response" s = (.done (finalSucc s d), []) := by
  subst hF; simp [run, nodeFn, final_response_node, hd, applyCmd, finalSucc]

/-- C1: for every run (any capability environment, any fuel) started at the
router on a history whose entries were all supplied by the external caller
(no origin label), every invocation of the review capability receives as
its original-question argument the content of the first history entry —
never an intermediate directive — so the value is immutable across the
run. -/
theorem original_request_immutable (env : Env) (fuel : Nat) (s0 : AgentState)
    (hne : s0.messages ≠ [])
    (huser : ∀ x ∈ s0.messages, x.name = none) :
    ∀ q ∈ reviewOriginals (run env fuel "router" s0).2,
      q = (s0.messages.head hne).content := by
  intro q hq
  exact original_request_invariant_aux env fuel "router" s0 (s0.messages.head hne)
    (List.head?_eq_head hne) (huser _ (List.head_mem hne)) q hq

/-- Witness for C1: a billing run on a single-question history; the one
review invocation receives exactly that question. -/
theorem original_request_immutable_witness :
    (askBill.messages ≠ [] ∧ ∀ x ∈ askBill.messages, x.name = none) ∧
    ∀ q ∈ reviewOriginals (run envBilling 10 "router" askBill).2,
      q = "I was overcharged on my last bill" := by
  refine ⟨⟨by decide, by decide⟩, ?_⟩
  intro q hq
  exact original_request_immutable envBilling 10 askBill (by decide) (by decide) q hq

/-- C2 (code bug): when the classifier returns the terminal sentinel
"FINISH", `router_node` issues `goto := "FINISH"` verbatim; "FINISH" is
not a registered node of the compiled graph, so the run aborts with a
runtime error — it does not reach the terminal end state, no terminal
message is appended, and no verdict is forced to approved (the function's
own return annotation `Command[Literal[*TEAM_MEMBERS, "__end__"]]` shows
the intended target was `__end__`). -/
theorem finish_sentinel_run_errors :
    run envFinish 10 "router" helloState =
      (.runtimeError "FINISH"
        ⟨[⟨.human, "hello there", none⟩,
          ⟨.human, "Conduct the following action: wrap up with this information: conversation complete", some "router"⟩],
         "FINISH", ""⟩,
       [.routerCall ⟨"FINISH", "wrap up", "conversation complete"⟩]) ∧
    ((run envFinish 10 "router" helloState).1).isDone = false ∧
    reviewCallCount (run envFinish 10 "router" helloState).2 = 0 ∧
    roleCallCount (run envFinish 10 "router" helloState).2 = 0 := by
  decide

/-- Counterexample to C3 as stated: a RoutingDecision targeting
"final_response" — a name absent from the role registry (TEAM_MEMBERS) —
is dispatched silently: the run completes normally, no role agent and no
reviewer is invoked, and the router's own directive text is emitted as
the final answer. -/
theorem internal_target_silently_answers :
    "final_response" ∉ teamMembers ∧
    run envInternal 10 "router" helloState =
      (.done ⟨[⟨.human, "hello there", none⟩,
               ⟨.human, "Conduct the following action: skip with this information: shortcut", some "router"⟩,
               ⟨.ai, "Conduct the following action: skip with this information: shortcut", some "final_response"⟩],
              "final_response", ""⟩,
       [.routerCall ⟨"final_response", "skip", "shortcut"⟩]) ∧
    roleCallCount (run envInternal 10 "router" helloState).2 = 0 ∧
    reviewCallCount (run envInternal 10 "router" helloState).2 = 0 := by
  decide

/-- C3 (amended): for every RoutingDecision whose target is not a node of
the compiled graph (and not the end sentinel), the dispatch step raises a
runtime error; no role agent is invoked and no answer is emitted.
(Targets naming the internal nodes "router"/"final_response", though
absent from the role registry, are silently dispatched — see the
counterexample.) -/
theorem unknown_node_target_surfaces_error (env : Env) (F f : Nat) (hF : F = f + 2)
    (s : AgentState) (r : RouterOut)
    (hr : env.routerFn (s.messages.map Msg.content) = r)
    (hnode : nodeFn r.next = none) (hend : r.next ≠ "__end__") :
    run env F "router" s = (.runtimeError r.next (routerSucc s r), [.routerCall r]) ∧
    ((run env F "router" s).1).isDone = false ∧
    roleCallCount (run env F "router" s).2 = 0 := by
  subst hF
  have h1 := run_router_step env (f + 2) (f + 1) rfl s r hr
  rw [run_unknown_step env (f + 1) f rfl (routerSucc s r) r.next hnode hend] at h1
  dsimp only at h1
  exact ⟨h1, by rw [h1]; rfl, by rw [h1]; rfl⟩

/-- Witness for C3 (amended): a decision targeting "weather_agent" makes
the run abort with a runtime error and zero role invocations. -/
theorem unknown_node_target_surfaces_error_witness :
    (envUnknownRole.routerFn (askBill.messages.map Msg.content) = rWeather ∧
     nodeFn rWeather.next = none ∧ rWeather.next ≠ "__end__") ∧
    (run envUnknownRole 7 "router" askBill =
      (.runtimeError rWeather.next (routerSucc askBill rWeather), [.routerCall rWeather]) ∧
     ((run envUnknownRole 7 "router" askBill).1).isDone = false ∧
     roleCallCount (run envUnknownRole 7 "router" askBill).2 = 0) :=
  ⟨⟨rfl, rfl, by decide⟩,
   unknown_node_target_surfaces_error envUnknownRole 7 5 rfl askBill rWeather rfl rfl
    (by decide)⟩

/-- C4: for every RoutingDecision whose target is a member of the
configured role registry (TEAM_MEMBERS), the router's command targets
exactly that member (goto equals the decision's target, a registered
node), and the run continues at exactly that node. -/
theorem valid_target_dispatches_to_target (env : Env) (F f : Nat) (hF : F = f + 1)
    (s : AgentState) (r : RouterOut)
    (hr : env.routerFn (s.messages.map Msg.content) = r)
    (hmem : r.next ∈ teamMembers) :
    (router_node env s).1.goto = r.next ∧
    (nodeFn r.next).isSome = true ∧
    run env F "router" s =
      ((run env f r.next (routerSucc s r)).1,
       .routerCall r :: (run env f r.next (routerSucc s r)).2) := by
  subst hF
  refine ⟨by simp [router_node, hr], ?_, run_router_step env (f + 1) f rfl s r hr⟩
  have h4 : r.next = "general_info_agent" ∨ r.next = "technical_agent" ∨
      r.next = "billing_agent" ∨ r.next = "supervisor_agent" := by
    simpa [teamMembers] using hmem
  rcases h4 with h | h | h | h <;> rw [h] <;> rfl

/-- Witness for C4: a decision targeting "billing_agent" goes to the
billing node. -/
theorem valid_target_dispatches_to_target_witness :
    (envBilling.routerFn (askBill.messages.map Msg.content) = rBilling ∧
     rBilling.next ∈ teamMembers) ∧
    ((router_node envBilling askBill).1.goto = rBilling.next ∧
     (nodeFn rBilling.next).isSome = true ∧
     run envBilling 6 "router" askBill =
      ((run envBilling 5 rBilling.next (routerSucc askBill rBilling)).1,
       .routerCall rBilling :: (run envBilling 5 rBilling.next (routerSucc askBill rBilling)).2)) :=
  ⟨⟨rfl, by decide⟩,
   valid_target_dispatches_to_target envBilling 6 5 rfl askBill rBilling rfl (by decide)⟩

/-- C5: whenever the review capability returns verdict approved with
response text t, the run ends normally with terminal output exactly t (the
last history entry's content), and no routing pass occurs after the review
step (the trace after review holds no router invocation). -/
theorem approved_review_emits_text (env : Env) (F f : Nat) (hF : F = f + 3) (s : AgentState)
    (c t : String) (hc : lastContent? s.messages = some c)
    (ha : (env.supervisorFn (getOriginalUserQuestion s.messages) c).approval = "approved")
    (ht : (env.supervisorFn (getOriginalUserQuestion s.messages) c).response = t) :
    run env F "supervisor_agent" s =
      (.done { s with messages := s.messages ++
          [Msg.mk .ai t (some "supervisor"), Msg.mk .ai t (some "final_response")] },
       [.reviewCall (getOriginalUserQuestion s.messages) c]) ∧
    lastContent? (s.messages ++
      [Msg.mk .ai t (some "supervisor"), Msg.mk .ai t (some "final_response")]) = some t ∧
    routerCallCount [Event.reviewCall (getOriginalUserQuestion s.messages) c] = 0 := by
  subst hF
  have h1 := run_supervisor_approved env (f + 3) (f + 2) rfl s c hc ha
  rw [run_final_step env (f + 2) f rfl (supervisorSuccA env s c) t
    (by simp [supervisorSuccA, lastContent?, ht])] at h1
  refine ⟨?_, ?_, rfl⟩
  · rw [h1]
    simp [supervisorSuccA, finalSucc, ht]
  · simp [lastContent?]

/-- Witness for C5: approving reviewer on the billing question; terminal
output is the review text "All good." verbatim. -/
theorem approved_review_emits_text_witness :
    (lastContent? askBill.messages = some "I was overcharged on my last bill" ∧
     (envBilling.supervisorFn (getOriginalUserQuestion askBill.messages)
        "I was overcharged on my last bill").approval = "approved" ∧
     (envBilling.supervisorFn (getOriginalUserQuestion askBill.messages)
        "I was overcharged on my last bill").response = "All good.") ∧
    (run envBilling 13 "supervisor_agent" askBill =
      (.done { askBill with messages := askBill.messages ++
          [Msg.mk .ai "All good." (some "supervisor"),
           Msg.mk .ai "All good." (some "final_response")] },
       [.reviewCall (getOriginalUserQuestion askBill.messages)
          "I was overcharged on my last bill"]) ∧
     lastContent? (askBill.messages ++
        [Msg.mk .ai "All good." (some "supervisor"),
         Msg.mk .ai "All good." (some "final_response")]) = some "All good." ∧
     routerCallCount [Event.reviewCall (getOriginalUserQuestion askBill.messages)
        "I was overcharged on my last bill"] = 0) :=
  ⟨⟨rfl, rfl, rfl⟩,
   approved_review_emits_text envBilling 13 10 rfl askBill
     "I was overcharged on my last bill" "All good." rfl rfl rfl⟩

/-- Counterexample to C6 as stated: the role registry (TEAM_MEMBERS)
contains "supervisor_agent", so a run may dispatch straight from the
router to the reviewer; when the reviewer then rejects, the terminal
output is the apology but the role agent was invoked zero times, not
exactly once. -/
theorem rejected_review_without_role_call :
    run envDirectReject 10 "router" helloState =
      (.done ⟨[⟨.human, "hello there", none⟩,
               ⟨.human, "Conduct the following action: audit with this information: check", some "router"⟩,
               ⟨.ai, apologyText, some "supervisor"⟩,
               ⟨.ai, apologyText, some "final_response"⟩],
              "supervisor_agent", ""⟩,
       [.routerCall ⟨"supervisor_agent", "audit", "check"⟩,
        .reviewCall "hello there" "Conduct the following action: audit with this information: check"]) ∧
    reviewCallCount (run envDirectReject 10 "router" helloState).2 = 1 ∧
    roleCallCount (run envDirectReject 10 "router" helloState).2 = 0 := by
  decide

/-- C6 (amended): under the terminate-with-apology policy (the only
policy the code implements: the supervisor always proceeds to
final_response), whenever the routing decision dispatched to a role agent
and the review capability returns a non-approved verdict, the run ends
with the fixed apology text as terminal output, the role agent is invoked
exactly once, and only one routing pass occurs.  (When the decision
dispatches directly to the supervisor — which TEAM_MEMBERS permits — the
apology is still emitted but zero role invocations occur, see the
counterexample.) -/
theorem rejected_review_apologizes (env : Env) (F f : Nat) (hF : F = f + 5)
    (s0 : AgentState) (r : RouterOut) (c : String)
    (hr : env.routerFn (s0.messages.map Msg.content) = r)
    (hmem : r.next ∈ roleAgents)
    (hc : c = responseFormat r.next (env.roleFn r.next (routerMessage r)))
    (hrej : ¬ (env.supervisorFn
        (getOriginalUserQuestion (roleSucc env (routerSucc s0 r) r.next (routerMessage r)).messages)
        c).approval = "approved") :
    run env F "router" s0 =
      (.done (finalSucc (supervisorSuccR (roleSucc env (routerSucc s0 r) r.next (routerMessage r)))
          apologyText),
       [.routerCall r, .roleCall r.next (routerMessage r),
        .reviewCall
          (getOriginalUserQuestion (roleSucc env (routerSucc s0 r) r.next (routerMessage r)).messages)
          c]) ∧
    lastContent? (finalSucc (supervisorSuccR (roleSucc env (routerSucc s0 r) r.next (routerMessage r)))
        apologyText).messages = some apologyText ∧
    roleCallCount
      [Event.routerCall r, Event.roleCall r.next (routerMessage r),
       Event.reviewCall
        (getOriginalUserQuestion (roleSucc env (routerSucc s0 r) r.next (routerMessage r)).messages)
        c] = 1 ∧
    routerCallCount
      [Event.routerCall r, Event.roleCall r.next (routerMessage r),
       Event.reviewCall
        (getOriginalUserQuestion (roleSucc env (routerSucc s0 r) r.next (routerMessage r)).messages)
        c] = 1 := by
  subst hF
  subst hc
  have h1 := run_router_step env (f + 5) (f + 4) rfl s0 r hr
  rw [run_role_step env (f + 4) (f + 3) rfl (routerSucc s0 r) r.next (routerMessage r) hmem
    (by simp [routerSucc, lastContent?])] at h1
  rw [run_supervisor_rejected env (f + 3) (f + 2) rfl
    (roleSucc env (routerSucc s0 r) r.next (routerMessage r))
    (responseFormat r.next (env.roleFn r.next (routerMessage r)))
    (by simp [roleSucc, lastContent?]) hrej] at h1
  rw [run_final_step env (f + 2) f rfl
    (supervisorSuccR (roleSucc env (routerSucc s0 r) r.next (routerMessage r))) apologyText
    (by simp [supervisorSuccR, lastContent?])] at h1
  exact ⟨h1, by simp [finalSucc, lastContent?], rfl, rfl⟩

/-- Witness for C6 (amended): billing dispatch, rejecting reviewer; the
run ends with the apology after exactly one role invocation and one
routing pass. -/
theorem rejected_review_apologizes_witness :
    (envReject.routerFn (askBill.messages.map Msg.content) = rBillIssue ∧
     rBillIssue.next ∈ roleAgents ∧
     ¬ (envReject.supervisorFn
        (getOriginalUserQuestion
          (roleSucc envReject (routerSucc askBill rBillIssue) rBillIssue.next
            (routerMessage rBillIssue)).messages)
        (responseFormat rBillIssue.next
          (envReject.roleFn rBillIssue.next (routerMessage rBillIssue)))).approval = "approved") ∧
    (run envReject 15 "router" askBill =
      (.done (finalSucc (supervisorSuccR
          (roleSucc envReject (routerSucc askBill rBillIssue) rBillIssue.next
            (routerMessage rBillIssue))) apologyText),
       [.routerCall rBillIssue, .roleCall rBillIssue.next (routerMessage rBillIssue),
        .reviewCall
          (getOriginalUserQuestion
            (roleSucc envReject (routerSucc askBill rBillIssue) rBillIssue.next
              (routerMessage rBillIssue)).messages)
          (responseFormat rBillIssue.next
            (envReject.roleFn rBillIssue.next (routerMessage rBillIssue)))]) ∧
     lastContent? (finalSucc (supervisorSuccR
          (roleSucc envReject (routerSucc askBill rBillIssue) rBillIssue.next
            (routerMessage rBillIssue))) apologyText).messages = some apologyText ∧
     roleCallCount
       [Event.routerCall rBillIssue, Event.roleCall rBillIssue.next (routerMessage rBillIssue),
        Event.reviewCall
          (getOriginalUserQuestion
            (roleSucc envReject (routerSucc askBill rBillIssue) rBillIssue.next
              (routerMessage rBillIssue)).messages)
          (responseFormat rBillIssue.next
            (envReject.roleFn rBillIssue.next (routerMessage rBillIssue)))] = 1 ∧
     routerCallCount
       [Event.routerCall rBillIssue, Event.roleCall rBillIssue.next (routerMessage rBillIssue),
        Event.reviewCall
          (getOriginalUserQuestion
            (roleSucc envReject (routerSucc askBill rBillIssue) rBillIssue.next
              (routerMessage rBillIssue)).messages)
          (responseFormat rBillIssue.next
            (envReject.roleFn rBillIssue.next (routerMessage rBillIssue)))] = 1) :=
  ⟨⟨rfl, by decide, by decide⟩,
   rejected_review_apologizes envReject 15 10 rfl askBill rBillIssue
     (responseFormat rBillIssue.next
       (envReject.roleFn rBillIssue.next (routerMessage rBillIssue)))
     rfl (by decide) rfl (by decide)⟩

/-- Counterexample to C7 as stated: a classifier returning the terminal
sentinel is a legal review/role/classifier outcome, yet the run does not
reach the terminal final state — it aborts with a runtime error on the
unregistered node name "FINISH". -/
theorem finish_run_never_reaches_final :
    ((run envFinishStop 10 "router" askBill).1).isDone = false ∧
    (run envFinishStop 10 "router" askBill).1 =
      .runtimeError "FINISH"
        ⟨[⟨.human, "I was overcharged on my last bill", none⟩,
          ⟨.human, "Conduct the following action: stop with this information: done", some "router"⟩],
         "FINISH", ""⟩ := by
  decide

/-- C7 (amended): under the terminate-with-apology policy the code
implements, every run whose routing decision targets a member of the role
registry reaches the terminal state within 6 transitions — for every role
and review outcome — with at most 2 role-agent invocations and at most 2
review invocations (indeed at most one of each: no node ever returns to
the router).  Runs whose classifier returns the terminal sentinel abort
instead of reaching the final state (see the counterexample). -/
theorem apology_policy_bounded (env : Env) (s0 : AgentState) (r : RouterOut)
    (hr : env.routerFn (s0.messages.map Msg.content) = r)
    (hmem : r.next ∈ teamMembers) :
    ∃ sF tr, run env 6 "router" s0 = (.done sF, tr) ∧
      roleCallCount tr ≤ 2 ∧ reviewCallCount tr ≤ 2 ∧ routerCallCount tr = 1 := by
  have h1 := run_router_step env 6 5 rfl s0 r hr
  have hsplit : r.next ∈ roleAgents ∨ r.next = "supervisor_agent" := by
    simp only [teamMembers, roleAgents, List.mem_cons, List.not_mem_nil, or_false] at hmem ⊢
    tauto
  rcases hsplit with hrole | hsup
  · rw [run_role_step env 5 4 rfl (routerSucc s0 r) r.next (routerMessage r) hrole
      (by simp [routerSucc, lastContent?])] at h1
    by_cases happ : (env.supervisorFn
        (getOriginalUserQuestion (roleSucc env (routerSucc s0 r) r.next (routerMessage r)).messages)
        (responseFormat r.next (env.roleFn r.next (routerMessage r)))).approval = "approved"
    · rw [run_supervisor_approved env 4 3 rfl
        (roleSucc env (routerSucc s0 r) r.next (routerMessage r))
        (responseFormat r.next (env.roleFn r.next (routerMessage r)))
        (by simp [roleSucc, lastContent?]) happ] at h1
      rw [run_final_step env 3 1 rfl
        (supervisorSuccA env (roleSucc env (routerSucc s0 r) r.next (routerMessage r))
          (responseFormat r.next (env.roleFn r.next (routerMessage r))))
        (env.supervisorFn
          (getOriginalUserQuestion (roleSucc env (routerSucc s0 r) r.next (routerMessage r)).messages)
          (responseFormat r.next (env.roleFn r.next (routerMessage r)))).response
        (by simp [supervisorSuccA, lastContent?])] at h1
      dsimp only at h1
      refine ⟨_, _, h1, ?_, ?_, ?_⟩ <;>
        norm_num [roleCallCount, reviewCallCount, routerCallCount, List.filter]
    · rw [run_supervisor_rejected env 4 3 rfl
        (roleSucc env (routerSucc s0 r) r.next (routerMessage r))
        (responseFormat r.next (env.roleFn r.next (routerMessage r)))
        (by simp [roleSucc, lastContent?]) happ] at h1
      rw [run_final_step env 3 1 rfl
        (supervisorSuccR (roleSucc env (routerSucc s0 r) r.next (routerMessage r))) apologyText
        (by simp [supervisorSuccR, lastContent?])] at h1
      dsimp only at h1
      refine ⟨_, _, h1, ?_, ?_, ?_⟩ <;>
        norm_num [roleCallCount, reviewCallCount, routerCallCount, List.filter]
  · rw [hsup] at h1
    by_cases happ : (env.supervisorFn
        (getOriginalUserQuestion (routerSucc s0 r).messages)
        (routerMessage r)).approval = "approved"
    · rw [run_supervisor_approved env 5 4 rfl (routerSucc s0 r) (routerMessage r)
        (by simp [routerSucc, lastContent?]) happ] at h1
      rw [run_final_step env 4 2 rfl
        (supervisorSuccA env (routerSucc s0 r) (routerMessage r))
        (env.supervisorFn (getOriginalUserQuestion (routerSucc s0 r).messages)
          (routerMessage r)).response
        (by simp [supervisorSuccA, lastContent?])] at h1
      dsimp only at h1
      refine ⟨_, _, h1, ?_, ?_, ?_⟩ <;>
        norm_num [roleCallCount, reviewCallCount, routerCallCount, List.filter]
    · rw [run_supervisor_rejected env 5 4 rfl (routerSucc s0 r) (routerMessage r)
        (by simp [routerSucc, lastContent?]) happ] at h1
      rw [run_final_step env 4 2 rfl (supervisorSuccR (routerSucc s0 r)) apologyText
        (by simp [supervisorSuccR, lastContent?])] at h1
      dsimp only at h1
      refine ⟨_, _, h1, ?_, ?_, ?_⟩ <;>
        norm_num [roleCallCount, reviewCallCount, routerCallCount, List.filter]

/-- Witness for C7 (amended): the billing run terminates normally within
6 transitions with one role and one review invocation. -/
theorem apology_policy_bounded_witness :
    (envBilling.routerFn (askBill.messages.map Msg.content) = rBilling ∧
     rBilling.next ∈ teamMembers) ∧
    ∃ sF tr, run envBilling 6 "router" askBill = (.done sF, tr) ∧
      roleCallCount tr ≤ 2 ∧ reviewCallCount tr ≤ 2 ∧ routerCallCount tr = 1 :=
  ⟨⟨rfl, by decide⟩, apology_policy_bounded envBilling askBill rBilling rfl (by decide)⟩

/-- C8: the history entry `_invoke_agent` appends for a role result is
tagged with the invoking role's identifier and carries the formatted
result text; after appending, reading the history back yields that same
entry last (same tag, same text), and the prior entries are unchanged in
content and order (the appended list restricted to the old length is the
old history). -/
theorem role_message_roundtrip (env : Env) (s : AgentState) (agentName d : String)
    (hd : lastContent? s.messages = some d) :
    invoke_agent env s agentName =
      some ({ update := [Msg.mk .human (responseFormat agentName (env.roleFn agentName d)) (some agentName)]
              nextField := none
              goto := "supervisor_agent" },
            [.roleCall agentName d]) ∧
    (s.messages ++ [Msg.mk .human (responseFormat agentName (env.roleFn agentName d)) (some agentName)]).getLast? =
      some (Msg.mk .human (responseFormat agentName (env.roleFn agentName d)) (some agentName)) ∧
    (s.messages ++ [Msg.mk .human (responseFormat agentName (env.roleFn agentName d)) (some agentName)]).take
        s.messages.length = s.messages := by
  refine ⟨by simp [invoke_agent, hd], by simp, ?_⟩
  exact List.take_left s.messages _

/-- Witness for C8: appending the billing agent's tagged message to the
one-entry history round-trips. -/
theorem role_message_roundtrip_witness :
    lastContent? askBill.messages = some "I was overcharged on my last bill" ∧
    (invoke_agent envBilling askBill "billing_agent" =
      some ({ update := [Msg.mk .human
                (responseFormat "billing_agent"
                  (envBilling.roleFn "billing_agent" "I was overcharged on my last bill"))
                (some "billing_agent")]
              nextField := none
              goto := "supervisor_agent" },
            [.roleCall "billing_agent" "I was overcharged on my last bill"]) ∧
     (askBill.messages ++ [Msg.mk .human
        (responseFormat "billing_agent"
          (envBilling.roleFn "billing_agent" "I was overcharged on my last bill"))
        (some "billing_agent")]).getLast? =
       some (Msg.mk .human
        (responseFormat "billing_agent"
          (envBilling.roleFn "billing_agent" "I was overcharged on my last bill"))
        (some "billing_agent")) ∧
     (askBill.messages ++ [Msg.mk .human
        (responseFormat "billing_agent"
          (envBilling.roleFn "billing_agent" "I was overcharged on my last bill"))
        (some "billing_agent")]).take askBill.messages.length = askBill.messages) :=
  ⟨rfl, role_message_roundtrip envBilling askBill "billing_agent"
    "I was overcharged on my last bill" rfl⟩

/-- C9: `final_response_node` appends a message whose content equals the
content of the previously last message, so at termination the last two
history entries have identical content and the terminal output (the last
entry) equals the text emitted by the preceding node. -/
theorem final_response_duplicates_last (s : AgentState) (d : String)
    (hd : lastContent? s.messages = some d) :
    final_response_node s =
      some ({ update := [Msg.mk .ai d (some "final_response")]
              nextField := none
              goto := "__end__" }, []) ∧
    lastContent? (s.messages ++ [Msg.mk .ai d (some "final_response")]) = some d ∧
    lastContent? ((s.messages ++ [Msg.mk .ai d (some "final_response")]).dropLast) = some d := by
  refine ⟨by simp [final_response_node, hd], by simp [lastContent?], ?_⟩
  rw [List.dropLast_concat]
  exact hd

/-- Witness for C9: the final step duplicates "hello there". -/
theorem final_response_duplicates_last_witness :
    lastContent? helloState.messages = some "hello there" ∧
    (final_response_node helloState =
      some ({ update := [Msg.mk .ai "hello there" (some "final_response")]
              nextField := none
              goto := "__end__" }, []) ∧
     lastContent? (helloState.messages ++ [Msg.mk .ai "hello there" (some "final_response")]) =
       some "hello there" ∧
     lastContent? ((helloState.messages ++
        [Msg.mk .ai "hello there" (some "final_response")]).dropLast) = some "hello there") :=
  ⟨rfl, final_response_duplicates_last helloState "hello there" rfl⟩

/-- C10: the role-agent step reads only the last message's content — two
states whose histories agree on the last content produce identical role
invocations (same directive, same command), so the role agent never sees
the original question or earlier history. -/
theorem role_agent_depends_only_on_last (env : Env) (s1 s2 : AgentState) (agentName : String)
    (h : lastContent? s1.messages = lastContent? s2.messages) :
    invoke_agent env s1 agentName = invoke_agent env s2 agentName := by
  unfold invoke_agent
  rw [h]

/-- Witness for C10: a two-entry history and a one-entry history with the
same last content yield identical billing invocations. -/
theorem role_agent_depends_only_on_last_witness :
    lastContent? longHistoryState.messages = lastContent? shortHistoryState.messages ∧
    invoke_agent envBilling longHistoryState "billing_agent" =
      invoke_agent envBilling shortHistoryState "billing_agent" :=
  ⟨rfl, role_agent_depends_only_on_last envBilling longHistoryState shortHistoryState
    "billing_agent" rfl⟩
